import Mathlib

/-!
# Verification of the colours_of_wine image-synthesis pipeline

Shallow embedding of the rendering backend of the colours_of_wine
repository, covering:

* src/backend/imagegen.py — hex_to_rgb, draw_residual_sugar_bar,
  generate_wine_png_bytes (the render pipeline);
* src/backend/models.py — VizProfile and VizProfile.clamp.

Modelling conventions:

* Python float arithmetic is embedded over the rationals.  Every
  constant of the source (0.2, 0.08, 0.27, 1.08, ...) is exactly
  representable, and every comparison settled below compares values
  whose float and rational orderings agree.
* The transcendental functions of the source (math.log10, np.exp and
  the 0.6 power of the circular mask) have no rational counterpart;
  statements that touch them are parameterised by a function together
  with exactly the properties of the real function that the statement
  needs (for example log10 1 = 0), so the theorems instantiate to the
  real pipeline.
* A Python dict field that is absent, None, or not convertible to
  float is modelled as Option.none: the helper underscoreF below is
  the embedding of the local function underscore-f of imagegen.py,
  which substitutes the per-field default exactly in those cases.
* Python exceptions are modelled by Option/Except: a parse that
  raises is a none.
-/

namespace ColoursOfWine

/-! ## Characters: hex digits and whitespace

Python str.strip removes whitespace from both ends and
str.lstrip("#") removes leading number signs; int(h, 16) accepts the
hexadecimal digits 0-9, a-f, A-F.  The character classes are embedded
through the code point, restricted to ASCII whitespace. -/

/-- Value of one hexadecimal digit, none for any other character.
Embeds the digit set accepted by Python int(h, 16). -/
def hexDigitVal? (ch : Char) : Option ℕ :=
  let n := ch.toNat
  if 48 ≤ n ∧ n ≤ 57 then some (n - 48)
  else if 97 ≤ n ∧ n ≤ 102 then some (n - 87)
  else if 65 ≤ n ∧ n ≤ 70 then some (n - 55)
  else none

/-- ASCII whitespace as stripped by Python str.strip. -/
def isSpaceChar (ch : Char) : Bool :=
  let n := ch.toNat
  n = 32 || n = 9 || n = 10 || n = 13 || n = 11 || n = 12

/-- Right strip: removes trailing whitespace. -/
def pyRstrip : List Char → List Char
  | [] => []
  | ch :: rest =>
      let r := pyRstrip rest
      if r.isEmpty ∧ isSpaceChar ch then [] else ch :: r

/-- Python str.strip: whitespace removed from both ends. -/
def pyStrip (l : List Char) : List Char :=
  pyRstrip (l.dropWhile isSpaceChar)

/-- Python str.lstrip("#"): leading number signs removed. -/
def pyLstripHash (l : List Char) : List Char :=
  l.dropWhile (fun ch => ch = '#')

/-- Accumulator pass of the hexadecimal parse int(h, 16). -/
def hexValAux : ℕ → List Char → Option ℕ
  | acc, [] => some acc
  | acc, ch :: rest =>
      match hexDigitVal? ch with
      | none => none
      | some v => hexValAux (acc * 16 + v) rest

/-- int(h, 16) on a plain run of hexadecimal digits: none (a raised
ValueError) on the empty string or on any non-digit character. -/
def hexVal? (l : List Char) : Option ℕ :=
  if l.isEmpty then none else hexValAux 0 l

/-! ## hex_to_rgb — imagegen.py lines 6-11

    h = hex_str.strip().lstrip("#")
    if len(h) == 6: h = "FF" + h
    value = int(h, 16)
    return ((value >> 16) & 255, (value >> 8) & 255, value & 255)

The shifts and masks on a non-negative integer are division and
remainder by powers of two. -/

def hex_to_rgb (s : List Char) : Option (ℕ × ℕ × ℕ) :=
  let h := pyLstripHash (pyStrip s)
  let h := if h.length = 6 then 'F' :: 'F' :: h else h
  match hexVal? h with
  | none => none
  | some value => some ((value / 65536) % 256, (value / 256) % 256, value % 256)

/-! ## Scalar extraction — imagegen.py lines 437-442

    def _f(name, default=0.0):
        v = viz.get(name)
        try: return float(v) if v is not None else default
        except (TypeError, ValueError): return default

An absent or non-convertible field is a none; a numeric field passes
through unchanged: no clamping happens here. -/

/-- The local helper underscore-f of generate_wine_png_bytes. -/
def underscoreF (v : Option ℚ) (d : ℚ) : ℚ :=
  v.getD d

/-- np.clip on scalars: max(lo, min(x, hi)). -/
def clampQ (x lo hi : ℚ) : ℚ :=
  max lo (min x hi)

/-- Python: viz.get("base_color_hex") or "#F6F2AF" — the default is
substituted exactly when the field is absent or an empty (falsy)
string.  imagegen.py line 419. -/
def chooseBaseHex (o : Option String) : String :=
  match o with
  | none => "#F6F2AF"
  | some s => if s = "" then "#F6F2AF" else s

/-! ## The viz record consumed by generate_wine_png_bytes

The renderer reads these keys from the viz dict (imagegen.py lines
419, 444-458).  Numeric fields are Option rationals (none = absent or
not convertible, see underscoreF). -/

structure VizRecord where
  base_color_hex : Option String
  wine_type : String
  oak_intensity : Option ℚ
  mineral_intensity : Option ℚ
  acidity : Option ℚ
  herbal_intensity : Option ℚ
  spice_intensity : Option ℚ
  fruit_citrus : Option ℚ
  fruit_stone : Option ℚ
  fruit_tropical : Option ℚ
  fruit_red : Option ℚ
  fruit_dark : Option ℚ
  body : Option ℚ
  depth : Option ℚ
  effervescence : Option ℚ
  residual_sugar : Option ℚ
deriving DecidableEq

/-! ## Family classification — imagegen.py lines 461-474

    base_brightness = np.mean(base_rgb) / 255.0
    if wine_type == "red": is_red_wine, is_rose = True, False
    elif wine_type == "rose": is_red_wine, is_rose = False, True
    elif wine_type == "white": is_red_wine, is_rose = False, False
    else:
        is_red_wine = base_brightness < 0.5
        is_rose = (0.5 <= base_brightness < 0.7)
                  and (base_rgb[0] > base_rgb[1] + 30)
                  and (base_rgb[1] < 160)
-/

/-- Mean-channel brightness of the base colour. -/
def baseBrightness (rgb : ℚ × ℚ × ℚ) : ℚ :=
  ((rgb.1 + rgb.2.1 + rgb.2.2) / 3) / 255

/-- The auto branch of the classifier: (is_red_wine, is_rose). -/
def classifyAuto (rgb : ℚ × ℚ × ℚ) : Bool × Bool :=
  let b := baseBrightness rgb
  (decide (b < 0.5),
   decide ((0.5 ≤ b ∧ b < 0.7) ∧ rgb.1 > rgb.2.1 + 30 ∧ rgb.2.1 < 160))

/-- Full classifier with the explicit wine_type overrides. -/
def classify (wine_type : String) (rgb : ℚ × ℚ × ℚ) : Bool × Bool :=
  if wine_type = "red" then (true, false)
  else if wine_type = "rose" then (false, true)
  else if wine_type = "white" then (false, false)
  else classifyAuto rgb

/-! ## The ring catalog — imagegen.py lines 504-517 -/

/-- One entry of RING_DEFINITIONS with its driving intensity already
resolved from the viz record: (name, center, width, color_rgb or none
for the depth ring, intensity). -/
structure RingEntry where
  name : String
  center : ℚ
  width : ℚ
  color : Option (ℕ × ℕ × ℕ)
  intensity : ℚ
deriving DecidableEq

/-- RING_DEFINITIONS, outermost first, with the intensities the
renderer extracts on lines 444-455 (defaults: acidity 0.5, body 0.5,
depth 0.5, all other intensities 0.0). -/
def ringCatalog (v : VizRecord) : List RingEntry :=
  [ ⟨ "Holz/Fass",    0.78, 0.06, some (140, 90, 50),   underscoreF v.oak_intensity 0 ⟩,
    ⟨ "Mineralität",  0.72, 0.06, some (130, 140, 150), underscoreF v.mineral_intensity 0 ⟩,
    ⟨ "Säure",        0.66, 0.06, some (160, 200, 120), underscoreF v.acidity 0.5 ⟩,
    ⟨ "Kräuter",      0.60, 0.06, some (70, 120, 70),   underscoreF v.herbal_intensity 0 ⟩,
    ⟨ "Würze",        0.54, 0.06, some (170, 100, 45),  underscoreF v.spice_intensity 0 ⟩,
    ⟨ "Zitrus",       0.48, 0.05, some (240, 220, 70),  underscoreF v.fruit_citrus 0 ⟩,
    ⟨ "Steinobst",    0.42, 0.05, some (240, 170, 90),  underscoreF v.fruit_stone 0 ⟩,
    ⟨ "Tropisch",     0.36, 0.05, some (240, 200, 55),  underscoreF v.fruit_tropical 0 ⟩,
    ⟨ "Rotfrucht",    0.30, 0.05, some (200, 60, 60),   underscoreF v.fruit_red 0 ⟩,
    ⟨ "Dunkelfrucht", 0.24, 0.05, some (80, 35, 80),    underscoreF v.fruit_dark 0 ⟩,
    ⟨ "Körper",       0.18, 0.06, some (140, 70, 45),   underscoreF v.body 0.5 ⟩,
    ⟨ "Tiefe",        0.12, 0.08, none,                 underscoreF v.depth 0.5 ⟩ ]

/-- Layer 2 composites exactly the catalog entries that survive
the guard on line 520: if intensity < 0.2: continue. -/
def renderedRings (v : VizRecord) : List RingEntry :=
  (ringCatalog v).filter (fun e => !decide (e.intensity < 0.2))

/-- Gaussian ring weight of a pixel at normalised radius t, lines
522-525, parameterised by the exponential function:
    sigma = width * 0.5
    ring_weight = exp(-0.5 * (|t - center| / sigma)^2)
    ring_weight *= clip((0.82 - t) / 0.10, 0, 1)
-/
def ringWeight (expf : ℚ → ℚ) (e : RingEntry) (t : ℚ) : ℚ :=
  let sigma := e.width * 0.5
  expf (-(0.5) * (|t - e.center| / sigma) ^ 2) * clampQ ((0.82 - t) / 0.10) 0 1

/-- Line 526: ring_opacity = ring_weight * (0.08 + intensity * 0.27). -/
def ringOpacity (ring_weight intensity : ℚ) : ℚ :=
  ring_weight * (0.08 + intensity * 0.27)

/-- Line 536, one channel of a coloured ring blend:
    wine = wine * (1 - ring_opacity) + color * ring_opacity. -/
def ringBlendPixel (expf : ℚ → ℚ) (e : RingEntry) (t wine color : ℚ) : ℚ :=
  let op := ringOpacity (ringWeight expf e t) e.intensity
  wine * (1 - op) + color * op

/-! ## Circular mask — imagegen.py lines 624-633

    edge_start, edge_end = 0.90, 1.08
    circle_alpha = clip((edge_end - t) / (edge_end - edge_start), 0, 1)
    circle_alpha = circle_alpha ** 0.6
    img = bg_color * (1 - circle_alpha) + wine * circle_alpha
    pil = Image.fromarray(np.clip(img, 0, 255).astype(np.uint8))

The 0.6 power is parameterised (powf); the real function satisfies
powf 0 = 0, the only fact used below.  astype(np.uint8) on a value
already clipped to [0, 255] truncates, i.e. takes the floor. -/

/-- The clipped base of the mask exponentiation. -/
def circleAlphaBase (t : ℚ) : ℚ :=
  clampQ ((1.08 - t) / (1.08 - 0.90)) 0 1

/-- One channel of the final composite against the background. -/
def maskedChannel (powf : ℚ → ℚ) (t bgc wine : ℚ) : ℚ :=
  let a := powf (circleAlphaBase t)
  bgc * (1 - a) + wine * a

/-- np.clip(x, 0, 255).astype(np.uint8) on one channel. -/
def toByte (x : ℚ) : ℤ :=
  ⌊clampQ x 0 255⌋

/-- The final 8-bit pixel of the square canvas at radius t, for wine
layer channels (wr, wg, wb); the background is (252, 252, 254). -/
def finalPixel (powf : ℚ → ℚ) (t wr wg wb : ℚ) : ℤ × ℤ × ℤ :=
  (toByte (maskedChannel powf t 252 wr),
   toByte (maskedChannel powf t 252 wg),
   toByte (maskedChannel powf t 254 wb))

/-! ## Residual-sugar bar — imagegen.py lines 14-71 and 635-641 -/

/-- Bar width: max(int(w * 0.05), 30) on line 31.  For Python floats,
int(w * 0.05) equals floor(w / 20) for every canvas width that fits
in 53 bits: the double closest to 0.05 exceeds 1/20 by less than
2^-55 relatively, so the product never crosses an integer. -/
def bar_width (w : ℕ) : ℕ :=
  max (w / 20) 30

/-- Output dimensions (width, height) of draw_residual_sugar_bar on
an input image of size w by h: unchanged for negative sugar (line
26), otherwise widened by the bar (lines 29-35). -/
def sugarBarDims (w h : ℕ) (residual_sugar : ℚ) (barWidthArg : Option ℕ) : ℕ × ℕ :=
  if residual_sugar < 0 then (w, h)
  else (w + barWidthArg.getD (bar_width w), h)

/-- Clamp of the sugar value at the log mapping, line 50:
    clamped = max(min_sugar, min(residual_sugar, max_sugar)). -/
def sugarClamp (residual_sugar : ℚ) : ℚ :=
  max 1 (min residual_sugar 500)

/-- Bar fill ratio, lines 43-52, parameterised by log10:
    if residual_sugar <= 0: ratio = 0
    else: ratio = log10(clamped) / log10(500); ratio = min(1, max(0, ratio)). -/
def sugarFillRatio (log10 : ℚ → ℚ) (residual_sugar : ℚ) : ℚ :=
  if residual_sugar ≤ 0 then 0
  else
    let ratio := log10 (sugarClamp residual_sugar) / log10 500
    min 1 (max 0 ratio)

/-- Dimensions of the image returned by generate_wine_png_bytes: the
square canvas is size by size (line 422), and lines 636-637 append
the bar exactly when residual_sugar > 0. -/
def outputDims (residual_sugar : ℚ) (size : ℕ) : ℕ × ℕ :=
  if 0 < residual_sugar then sugarBarDims size size residual_sugar none
  else (size, size)

/-! ## The render as a pure function — imagegen.py lines 408-641

The pipeline has no input other than the viz record and the size: the
one generator is constructed on line 435 as np.random.default_rng(42)
with the literal seed 42.  RenderResult collects the deterministic
observables embedded above; a none output models the ValueError a
malformed base colour raises out of hex_to_rgb. -/

/-- The seed of line 435: np.random.default_rng(42). -/
def rngSeed : ℕ := 42

/-- Observables of one render: the family flags, the composited ring
set, the output dimensions, and the seed of the generator that drove
all randomisation. -/
structure RenderResult where
  is_red_wine : Bool
  is_rose : Bool
  rings : List RingEntry
  dims : ℕ × ℕ
  seed : ℕ
deriving DecidableEq

/-- The render with the generator seed made explicit. -/
def renderWithSeed (viz : VizRecord) (size : ℕ) (seed : ℕ) : Option RenderResult :=
  match hex_to_rgb (chooseBaseHex viz.base_color_hex).toList with
  | none => none
  | some (r, g, b) =>
      let fam := classify viz.wine_type ((r : ℚ), (g : ℚ), (b : ℚ))
      some { is_red_wine := fam.1
             is_rose := fam.2
             rings := renderedRings viz
             dims := outputDims (underscoreF viz.residual_sugar 0) size
             seed := seed }

/-- generate_wine_png_bytes: the render seeds its own generator with
the constant 42 and reads nothing else. -/
def generate_wine_png_bytes (viz : VizRecord) (size : ℕ) : Option RenderResult :=
  renderWithSeed viz size rngSeed

/-! ## VizProfile — models.py lines 54-127

Fields in declaration order; the string and list fields carried by
the pydantic model are kept (clamp leaves them untouched).  clamp()
mutates in place in Python; it is embedded as a function on records,
split into the field-wise pass (lines 103-119) and the three legacy
synchronisations (lines 121-127), composed in source order. -/

structure VizProfile where
  base_color_hex : Option String
  wine_type : String
  acidity : ℚ
  body : ℚ
  tannin : ℚ
  depth : ℚ
  sweetness : ℚ
  oak_intensity : ℚ
  mineral_intensity : ℚ
  herbal_intensity : ℚ
  spice_intensity : ℚ
  fruit_citrus : ℚ
  fruit_stone : ℚ
  fruit_tropical : ℚ
  fruit_red : ℚ
  fruit_dark : ℚ
  effervescence : ℚ
  bubbles : Bool
  oak_style : Option String
  bubbles_intensity : ℚ
  fruit : List String
  non_fruit : List String
  mineral : ℚ
  age_aromas_intensity : ℚ
  ripe_aromas : ℚ
deriving DecidableEq

/-- The local helper of clamp: c(v) = max(0.0, min(1.0, v)). -/
def c (v : ℚ) : ℚ :=
  max 0 (min 1 v)

/-- Lines 103-119: every listed scalar field through c.  (Note the
legacy fields mineral and ripe_aromas are not in the list.) -/
def clampCore (p : VizProfile) : VizProfile :=
  { p with
    acidity := c p.acidity
    body := c p.body
    tannin := c p.tannin
    depth := c p.depth
    sweetness := c p.sweetness
    oak_intensity := c p.oak_intensity
    mineral_intensity := c p.mineral_intensity
    herbal_intensity := c p.herbal_intensity
    spice_intensity := c p.spice_intensity
    fruit_citrus := c p.fruit_citrus
    fruit_stone := c p.fruit_stone
    fruit_tropical := c p.fruit_tropical
    fruit_red := c p.fruit_red
    fruit_dark := c p.fruit_dark
    effervescence := c p.effervescence
    bubbles_intensity := c p.bubbles_intensity
    age_aromas_intensity := c p.age_aromas_intensity }

/-- Lines 122-123: if self.mineral > 0 and self.mineral_intensity == 0:
self.mineral_intensity = c(self.mineral). -/
def syncMineral (p : VizProfile) : VizProfile :=
  if 0 < p.mineral ∧ p.mineral_intensity = 0 then
    { p with mineral_intensity := c p.mineral }
  else p

/-- Lines 124-125: if self.bubbles_intensity > 0 and self.effervescence == 0:
self.effervescence = c(self.bubbles_intensity). -/
def syncBubblesIntensity (p : VizProfile) : VizProfile :=
  if 0 < p.bubbles_intensity ∧ p.effervescence = 0 then
    { p with effervescence := c p.bubbles_intensity }
  else p

/-- Lines 126-127: if self.bubbles and self.effervescence == 0:
self.effervescence = 0.7. -/
def syncBubbles (p : VizProfile) : VizProfile :=
  if p.bubbles = true ∧ p.effervescence = 0 then
    { p with effervescence := 0.7 }
  else p

/-- VizProfile.clamp, models.py lines 99-127. -/
def VizProfile.clamp (p : VizProfile) : VizProfile :=
  syncBubbles (syncBubblesIntensity (syncMineral (clampCore p)))

/-- All seventeen fields that clamp sends through c lie in [0, 1]. -/
def scalarFieldsIn01 (p : VizProfile) : Prop :=
  (0 ≤ p.acidity ∧ p.acidity ≤ 1) ∧
  (0 ≤ p.body ∧ p.body ≤ 1) ∧
  (0 ≤ p.tannin ∧ p.tannin ≤ 1) ∧
  (0 ≤ p.depth ∧ p.depth ≤ 1) ∧
  (0 ≤ p.sweetness ∧ p.sweetness ≤ 1) ∧
  (0 ≤ p.oak_intensity ∧ p.oak_intensity ≤ 1) ∧
  (0 ≤ p.mineral_intensity ∧ p.mineral_intensity ≤ 1) ∧
  (0 ≤ p.herbal_intensity ∧ p.herbal_intensity ≤ 1) ∧
  (0 ≤ p.spice_intensity ∧ p.spice_intensity ≤ 1) ∧
  (0 ≤ p.fruit_citrus ∧ p.fruit_citrus ≤ 1) ∧
  (0 ≤ p.fruit_stone ∧ p.fruit_stone ≤ 1) ∧
  (0 ≤ p.fruit_tropical ∧ p.fruit_tropical ≤ 1) ∧
  (0 ≤ p.fruit_red ∧ p.fruit_red ≤ 1) ∧
  (0 ≤ p.fruit_dark ∧ p.fruit_dark ≤ 1) ∧
  (0 ≤ p.effervescence ∧ p.effervescence ≤ 1) ∧
  (0 ≤ p.bubbles_intensity ∧ p.bubbles_intensity ≤ 1) ∧
  (0 ≤ p.age_aromas_intensity ∧ p.age_aromas_intensity ≤ 1)

/-! ## Example records used by the witnesses -/

/-- A record whose only set scalar is residual_sugar = 10. -/
def vizSweet : VizRecord :=
  ⟨ some "#F6F2AF", "auto", none, none, none, none, none, none, none,
    none, none, none, none, none, none, some 10 ⟩

/-- A record with residual_sugar absent. -/
def vizDry : VizRecord :=
  ⟨ some "#F6F2AF", "auto", none, none, none, none, none, none, none,
    none, none, none, none, none, none, none ⟩

/-- A record with oak_intensity exactly at the ring threshold 0.2. -/
def vizOak : VizRecord :=
  ⟨ some "#F6F2AF", "auto", some 0.2, none, none, none, none, none, none,
    none, none, none, none, none, none, none ⟩

/-- The oak ring of vizOak as the catalog resolves it. -/
def ringOak : RingEntry :=
  ⟨ "Holz/Fass", 0.78, 0.06, some (140, 90, 50), 0.2 ⟩

/-! ## Helper lemmas on the clamp helper c -/

theorem c_nonneg (x : ℚ) : 0 ≤ c x :=
  le_max_left 0 _

theorem c_le_one (x : ℚ) : c x ≤ 1 :=
  max_le zero_le_one (min_le_left 1 x)

theorem c_eq_self {x : ℚ} (h0 : 0 ≤ x) (h1 : x ≤ 1) : c x = x := by
  unfold c
  rw [min_eq_right h1, max_eq_right h0]

theorem c_idem (x : ℚ) : c (c x) = c x :=
  c_eq_self (c_nonneg x) (c_le_one x)

theorem c_pos {x : ℚ} (h : 0 < x) : 0 < c x :=
  (lt_min one_pos h).trans_le (le_max_right 0 (min 1 x))

/-! ## C1 — output dimensions -/

/-- C1: the rendered image of generate_wine_png_bytes for canvas size
s is exactly s by s pixels when residual_sugar is 0 or absent, and
exactly (s + bar_width) wide by s high when residual_sugar > 0, where
bar_width = max(floor(0.05 * s), 30) = max(s / 20, 30). -/
theorem output_dimensions (viz : VizRecord) (s : ℕ) :
    (∀ res, generate_wine_png_bytes viz s = some res →
      res.dims = outputDims (underscoreF viz.residual_sugar 0) s) ∧
    (viz.residual_sugar = none → outputDims (underscoreF viz.residual_sugar 0) s = (s, s)) ∧
    (underscoreF viz.residual_sugar 0 = 0 →
      outputDims (underscoreF viz.residual_sugar 0) s = (s, s)) ∧
    (0 < underscoreF viz.residual_sugar 0 →
      outputDims (underscoreF viz.residual_sugar 0) s = (s + max (s / 20) 30, s)) := by
  refine ⟨?_, ?_, ?_, ?_⟩
  · intro res h
    unfold generate_wine_png_bytes renderWithSeed at h
    rcases hx : hex_to_rgb (chooseBaseHex viz.base_color_hex).toList with _ | ⟨r, g, b⟩ <;>
      rw [hx] at h
    · exact absurd h (by simp)
    · simp only [Option.some.injEq] at h
      rw [← h]
  · intro h
    rw [h]
    simp [outputDims, underscoreF]
  · intro h
    rw [h]
    simp [outputDims]
  · intro h
    unfold outputDims sugarBarDims bar_width
    rw [if_pos h, if_neg (by linarith)]
    rfl

/-- C1 witness: concrete records at size 512; the sweet record gains
a 30-pixel bar (512 / 20 = 25 < 30), the dry record keeps 512 x 512. -/
theorem output_dimensions_witness :
    outputDims (underscoreF vizSweet.residual_sugar 0) 512 = (542, 512) ∧
    outputDims (underscoreF vizDry.residual_sugar 0) 512 = (512, 512) := by
  constructor
  · have h := (output_dimensions vizSweet 512).2.2.2 (by norm_num [vizSweet, underscoreF])
    simpa using h
  · exact (output_dimensions vizDry 512).2.1 rfl

/-! ## C2 — determinism -/

/-- C2: the render is a deterministic function of the record and the
canvas size: two invocations agree, the pipeline factors through
renderWithSeed with the explicit seed, and that seed is the fixed
constant 42 for every call. -/
theorem render_deterministic_seed42 (viz : VizRecord) (size : ℕ) :
    generate_wine_png_bytes viz size = generate_wine_png_bytes viz size ∧
    generate_wine_png_bytes viz size = renderWithSeed viz size 42 ∧
    rngSeed = 42 :=
  ⟨rfl, rfl, rfl⟩

/-! ## C5 — family classification -/

/-- C5: in auto mode the classifier computes b = mean(R,G,B)/255 and
decides red iff b < 0.5, rosé iff 0.5 <= b < 0.7 and R > G + 30 and
G < 160, white otherwise; in particular #808080 parses to
(128, 128, 128) and classifies as white (neither red nor rosé). -/
theorem auto_family_classification (R G B : ℚ) :
    ((classify "auto" (R, G, B)).1 = true ↔ baseBrightness (R, G, B) < 0.5) ∧
    ((classify "auto" (R, G, B)).2 = true ↔
      ((0.5 ≤ baseBrightness (R, G, B) ∧ baseBrightness (R, G, B) < 0.7) ∧
        R > G + 30 ∧ G < 160)) ∧
    hex_to_rgb ("#808080".toList) = some (128, 128, 128) ∧
    classify "auto" ((128 : ℚ), 128, 128) = (false, false) := by
  refine ⟨?_, ?_, ?_, ?_⟩
  · simp [classify, classifyAuto]
  · simp [classify, classifyAuto]
  · decide
  · simp only [classify]
    rw [if_neg (by decide), if_neg (by decide), if_neg (by decide)]
    simp only [classifyAuto, baseBrightness, Prod.mk.injEq, decide_eq_false_iff_not]
    norm_num

/-! ## C6 — malformed base colour (corrected) -/

/-- C6 counterexample: a malformed colour string is not recovered:
only an absent or empty field receives the default, so "ZZZZZZ" is
passed to hex_to_rgb verbatim and the parse fails (int raises
ValueError out of generate_wine_png_bytes) instead of producing the
default colour. -/
theorem malformed_color_not_recovered :
    chooseBaseHex (some "ZZZZZZ") = "ZZZZZZ" ∧
    hex_to_rgb ("ZZZZZZ".toList) = none := by
  constructor
  · decide
  · decide

/-- C6 (amended): the default base colour #F6F2AF (which parses to
(246, 242, 175)) is substituted only when base_color_hex is absent or
empty; a string with non-hex characters makes the parse raise, and a
wrong-length hex string such as "FFF" parses without error to an
unintended colour rather than the default. -/
theorem base_color_default_only_for_missing :
    chooseBaseHex none = "#F6F2AF" ∧
    chooseBaseHex (some "") = "#F6F2AF" ∧
    hex_to_rgb ("#F6F2AF".toList) = some (246, 242, 175) ∧
    hex_to_rgb ("ZZZZZZ".toList) = none ∧
    hex_to_rgb ("FFF".toList) = some (0, 15, 255) := by
  refine ⟨rfl, by decide, by decide, by decide, by decide⟩

/-! ## C8 — clamping sites (corrected) -/

/-- C8 counterexample: the rendering pipeline itself does not clamp:
underscore-f passes the out-of-range scalar 5.0 straight through, and
the ring opacity it then drives differs from the one the clamped
value 1.0 would give (0.08 + 5 * 0.27 = 1.43 versus 0.35). -/
theorem renderer_uses_unclamped_scalar :
    underscoreF (some 5) 0 = 5 ∧
    ¬ underscoreF (some 5) 0 ≤ 1 ∧
    ringOpacity 1 (underscoreF (some 5) 0) ≠ ringOpacity 1 1 := by
  refine ⟨rfl, by norm_num [underscoreF], by norm_num [underscoreF, ringOpacity]⟩

/-! ## C3 — ring threshold and opacity -/

/-- C3: a catalog ring is composited iff its driving intensity is at
least 0.2 (so intensity 0.199 never renders), the per-pixel blend
opacity of a rendered ring is ring_weight * (0.08 + intensity * 0.27),
and at intensity exactly 0.2 that opacity is ring_weight * 0.134. -/
theorem ring_threshold_and_opacity (v : VizRecord) (e : RingEntry)
    (expf : ℚ → ℚ) (t wine color w : ℚ) (he : e ∈ ringCatalog v) :
    (e ∈ renderedRings v ↔ 0.2 ≤ e.intensity) ∧
    (e.intensity = 0.199 → e ∉ renderedRings v) ∧
    (ringBlendPixel expf e t wine color =
      wine * (1 - ringWeight expf e t * (0.08 + e.intensity * 0.27)) +
        color * (ringWeight expf e t * (0.08 + e.intensity * 0.27))) ∧
    (e.intensity = 0.2 → ringOpacity w e.intensity = w * 0.134) := by
  have hiff : e ∈ renderedRings v ↔ 0.2 ≤ e.intensity := by
    unfold renderedRings
    rw [List.mem_filter]
    constructor
    · intro h
      have hb := h.2
      simp only [Bool.not_eq_true', decide_eq_false_iff_not, not_lt] at hb
      exact hb
    · intro h
      refine ⟨he, ?_⟩
      simp only [Bool.not_eq_true', decide_eq_false_iff_not, not_lt]
      exact h
  refine ⟨hiff, ?_, ?_, ?_⟩
  · intro h199 hmem
    have := hiff.mp hmem
    rw [h199] at this
    norm_num at this
  · unfold ringBlendPixel ringOpacity
    ring
  · intro h
    rw [h]
    unfold ringOpacity
    norm_num

/-- C3 witness: the oak ring of vizOak sits exactly at intensity 0.2;
it is composited, and its opacity coefficient is 0.134. -/
theorem ring_threshold_and_opacity_witness :
    (ringOak ∈ renderedRings vizOak ↔ 0.2 ≤ ringOak.intensity) ∧
    (ringOak.intensity = 0.199 → ringOak ∉ renderedRings vizOak) ∧
    (ringBlendPixel (fun x => x) ringOak 0.5 100 140 =
      100 * (1 - ringWeight (fun x => x) ringOak 0.5 * (0.08 + ringOak.intensity * 0.27)) +
        140 * (ringWeight (fun x => x) ringOak 0.5 * (0.08 + ringOak.intensity * 0.27))) ∧
    (ringOak.intensity = 0.2 → ringOpacity 1 ringOak.intensity = 1 * 0.134) :=
  ring_threshold_and_opacity vizOak ringOak (fun x => x) 0.5 100 140 1
    (List.mem_cons_self _ _)

/-! ## C4 — rim invariant -/

/-- C4: outside the mask band, i.e. at every normalised radius
t with 1.08 <= t, the clipped mask base is 0, so for any mask
exponentiation sending 0 to 0 (the real 0.6 power does) the final
8-bit pixel is exactly the background colour (252, 252, 254),
whatever the wine layer held there. -/
theorem rim_background_invariant (powf : ℚ → ℚ) (hp : powf 0 = 0)
    (t wr wg wb : ℚ) (ht : 1.08 ≤ t) :
    circleAlphaBase t = 0 ∧ finalPixel powf t wr wg wb = (252, 252, 254) := by
  have hbase : circleAlphaBase t = 0 := by
    unfold circleAlphaBase clampQ
    have h1 : (1.08 - t) / (1.08 - 0.90) ≤ 0 :=
      div_nonpos_of_nonpos_of_nonneg (by linarith) (by norm_num)
    rw [min_eq_left (h1.trans zero_le_one), max_eq_left h1]
  refine ⟨hbase, ?_⟩
  unfold finalPixel maskedChannel
  rw [hbase, hp]
  norm_num [toByte, clampQ]

/-- C4 witness: at radius 2 the pixel is the background, with the
identity standing in for the 0.6 power (it also sends 0 to 0). -/
theorem rim_background_invariant_witness :
    circleAlphaBase 2 = 0 ∧ finalPixel (fun x => x) 2 7 8 9 = (252, 252, 254) :=
  rim_background_invariant (fun x => x) rfl 2 7 8 9 (by norm_num)

/-! ## C7 — sugar bar fill ratio -/

/-- C7: for positive residual sugar the fill ratio is
log10(clamp(r, 1, 500)) / log10(500) (the re-clamp of the code is a
no-op for any monotone log10 with log10 1 = 0 < log10 500, which the
real log10 is on [1, 500]); at r >= 500 the ratio is exactly 1 and at
0 < r <= 1 it is exactly 0. -/
theorem sugar_fill_ratio_log (log10 : ℚ → ℚ)
    (h1 : log10 1 = 0) (h500 : 0 < log10 500)
    (hmono : ∀ a b : ℚ, 1 ≤ a → a ≤ b → b ≤ 500 → log10 a ≤ log10 b)
    (r : ℚ) (hr : 0 < r) :
    sugarFillRatio log10 r = log10 (sugarClamp r) / log10 500 ∧
    (500 ≤ r → sugarFillRatio log10 r = 1) ∧
    (r ≤ 1 → sugarFillRatio log10 r = 0) := by
  have hc1 : 1 ≤ sugarClamp r := le_max_left _ _
  have hc500 : sugarClamp r ≤ 500 := max_le (by norm_num) (min_le_right _ _)
  have hlow : 0 ≤ log10 (sugarClamp r) := by
    have h := hmono 1 (sugarClamp r) le_rfl hc1 hc500
    rwa [h1] at h
  have hhigh : log10 (sugarClamp r) ≤ log10 500 :=
    hmono (sugarClamp r) 500 hc1 hc500 le_rfl
  have hmain : sugarFillRatio log10 r = log10 (sugarClamp r) / log10 500 := by
    unfold sugarFillRatio
    rw [if_neg (not_le.mpr hr)]
    show min (1 : ℚ) (max 0 (log10 (sugarClamp r) / log10 500)) =
      log10 (sugarClamp r) / log10 500
    rw [max_eq_right (div_nonneg hlow h500.le),
      min_eq_right ((div_le_one h500).mpr hhigh)]
  refine ⟨hmain, ?_, ?_⟩
  · intro h500r
    have hcl : sugarClamp r = 500 := by
      unfold sugarClamp
      rw [min_eq_right h500r, max_eq_right (by norm_num)]
    rw [hmain, hcl, div_self h500.ne']
  · intro hr1
    have hcl : sugarClamp r = 1 := by
      unfold sugarClamp
      rw [min_eq_left (hr1.trans (by norm_num)), max_eq_left hr1]
    rw [hmain, hcl, h1, zero_div]

/-- C7 witness: with the monotone stand-in x - 1 for log10 (it sends
1 to 0 and 500 to 499 > 0), residual sugar 500 fills the bar. -/
theorem sugar_fill_ratio_log_witness :
    sugarFillRatio (fun x => x - 1) 500 = 1 :=
  (sugar_fill_ratio_log (fun x => x - 1) (by norm_num) (by norm_num)
    (fun a b _ hab _ => by simpa using hab) 500 (by norm_num)).2.1 le_rfl

/-! ## Projection lemmas for the clamp passes -/

@[simp] theorem syncMineral_mineral_intensity (p : VizProfile) :
    (syncMineral p).mineral_intensity =
      if 0 < p.mineral ∧ p.mineral_intensity = 0 then c p.mineral
      else p.mineral_intensity := by
  unfold syncMineral
  split_ifs <;> rfl

@[simp] theorem syncMineral_effervescence (p : VizProfile) :
    (syncMineral p).effervescence = p.effervescence := by
  unfold syncMineral
  split_ifs <;> rfl

@[simp] theorem syncMineral_bubbles_intensity (p : VizProfile) :
    (syncMineral p).bubbles_intensity = p.bubbles_intensity := by
  unfold syncMineral
  split_ifs <;> rfl

@[simp] theorem syncMineral_bubbles (p : VizProfile) :
    (syncMineral p).bubbles = p.bubbles := by
  unfold syncMineral
  split_ifs <;> rfl

@[simp] theorem syncMineral_mineral (p : VizProfile) :
    (syncMineral p).mineral = p.mineral := by
  unfold syncMineral
  split_ifs <;> rfl

@[simp] theorem syncBubblesIntensity_effervescence (p : VizProfile) :
    (syncBubblesIntensity p).effervescence =
      if 0 < p.bubbles_intensity ∧ p.effervescence = 0 then c p.bubbles_intensity
      else p.effervescence := by
  unfold syncBubblesIntensity
  split_ifs <;> rfl

@[simp] theorem syncBubblesIntensity_mineral_intensity (p : VizProfile) :
    (syncBubblesIntensity p).mineral_intensity = p.mineral_intensity := by
  unfold syncBubblesIntensity
  split_ifs <;> rfl

@[simp] theorem syncBubblesIntensity_bubbles_intensity (p : VizProfile) :
    (syncBubblesIntensity p).bubbles_intensity = p.bubbles_intensity := by
  unfold syncBubblesIntensity
  split_ifs <;> rfl

@[simp] theorem syncBubblesIntensity_bubbles (p : VizProfile) :
    (syncBubblesIntensity p).bubbles = p.bubbles := by
  unfold syncBubblesIntensity
  split_ifs <;> rfl

@[simp] theorem syncBubblesIntensity_mineral (p : VizProfile) :
    (syncBubblesIntensity p).mineral = p.mineral := by
  unfold syncBubblesIntensity
  split_ifs <;> rfl

@[simp] theorem syncBubbles_effervescence (p : VizProfile) :
    (syncBubbles p).effervescence =
      if p.bubbles = true ∧ p.effervescence = 0 then 0.7
      else p.effervescence := by
  unfold syncBubbles
  split_ifs <;> rfl

@[simp] theorem syncBubbles_mineral_intensity (p : VizProfile) :
    (syncBubbles p).mineral_intensity = p.mineral_intensity := by
  unfold syncBubbles
  split_ifs <;> rfl

@[simp] theorem syncBubbles_bubbles_intensity (p : VizProfile) :
    (syncBubbles p).bubbles_intensity = p.bubbles_intensity := by
  unfold syncBubbles
  split_ifs <;> rfl

@[simp] theorem syncBubbles_bubbles (p : VizProfile) :
    (syncBubbles p).bubbles = p.bubbles := by
  unfold syncBubbles
  split_ifs <;> rfl

@[simp] theorem syncBubbles_mineral (p : VizProfile) :
    (syncBubbles p).mineral = p.mineral := by
  unfold syncBubbles
  split_ifs <;> rfl

/-! ## The field-wise pass keeps everything in [0, 1] -/

theorem scalarFieldsIn01_clampCore (p : VizProfile) :
    scalarFieldsIn01 (clampCore p) :=
  ⟨⟨c_nonneg _, c_le_one _⟩, ⟨c_nonneg _, c_le_one _⟩, ⟨c_nonneg _, c_le_one _⟩,
   ⟨c_nonneg _, c_le_one _⟩, ⟨c_nonneg _, c_le_one _⟩, ⟨c_nonneg _, c_le_one _⟩,
   ⟨c_nonneg _, c_le_one _⟩, ⟨c_nonneg _, c_le_one _⟩, ⟨c_nonneg _, c_le_one _⟩,
   ⟨c_nonneg _, c_le_one _⟩, ⟨c_nonneg _, c_le_one _⟩, ⟨c_nonneg _, c_le_one _⟩,
   ⟨c_nonneg _, c_le_one _⟩, ⟨c_nonneg _, c_le_one _⟩, ⟨c_nonneg _, c_le_one _⟩,
   ⟨c_nonneg _, c_le_one _⟩, ⟨c_nonneg _, c_le_one _⟩⟩

theorem scalarFieldsIn01_syncMineral {p : VizProfile}
    (h : scalarFieldsIn01 p) : scalarFieldsIn01 (syncMineral p) := by
  obtain ⟨h1, h2, h3, h4, h5, h6, h7, h8, h9, h10, h11, h12, h13, h14, h15, h16, h17⟩ := h
  unfold syncMineral
  split_ifs with hc
  · exact ⟨h1, h2, h3, h4, h5, h6, ⟨c_nonneg _, c_le_one _⟩, h8, h9, h10, h11,
      h12, h13, h14, h15, h16, h17⟩
  · exact ⟨h1, h2, h3, h4, h5, h6, h7, h8, h9, h10, h11, h12, h13, h14, h15, h16, h17⟩

theorem scalarFieldsIn01_syncBubblesIntensity {p : VizProfile}
    (h : scalarFieldsIn01 p) : scalarFieldsIn01 (syncBubblesIntensity p) := by
  obtain ⟨h1, h2, h3, h4, h5, h6, h7, h8, h9, h10, h11, h12, h13, h14, h15, h16, h17⟩ := h
  unfold syncBubblesIntensity
  split_ifs with hc
  · exact ⟨h1, h2, h3, h4, h5, h6, h7, h8, h9, h10, h11, h12, h13, h14,
      ⟨c_nonneg _, c_le_one _⟩, h16, h17⟩
  · exact ⟨h1, h2, h3, h4, h5, h6, h7, h8, h9, h10, h11, h12, h13, h14, h15, h16, h17⟩

theorem scalarFieldsIn01_syncBubbles {p : VizProfile}
    (h : scalarFieldsIn01 p) : scalarFieldsIn01 (syncBubbles p) := by
  obtain ⟨h1, h2, h3, h4, h5, h6, h7, h8, h9, h10, h11, h12, h13, h14, h15, h16, h17⟩ := h
  unfold syncBubbles
  split_ifs with hc
  · exact ⟨h1, h2, h3, h4, h5, h6, h7, h8, h9, h10, h11, h12, h13, h14,
      ⟨by norm_num, by norm_num⟩, h16, h17⟩
  · exact ⟨h1, h2, h3, h4, h5, h6, h7, h8, h9, h10, h11, h12, h13, h14, h15, h16, h17⟩

/-- After clamp, every listed scalar field lies in [0, 1]. -/
theorem clamp_scalarFieldsIn01 (p : VizProfile) : scalarFieldsIn01 p.clamp :=
  scalarFieldsIn01_syncBubbles
    (scalarFieldsIn01_syncBubblesIntensity
      (scalarFieldsIn01_syncMineral (scalarFieldsIn01_clampCore p)))

/-! ## C8 — where clamping happens (amended) -/

/-- C8 (amended): the clamp to [0, 1] is the work of VizProfile.clamp
on the profile record, not of the rendering pipeline: after clamp all
seventeen listed scalar fields lie in [0, 1], while the renderer's
underscore-f returns a present value unchanged (out-of-range included)
and substitutes the default only for an absent one; residual_sugar is
clamped to [1, 500] exactly at the log-scale mapping step. -/
theorem clamping_sites :
    (∀ p : VizProfile, scalarFieldsIn01 p.clamp) ∧
    (∀ q d : ℚ, underscoreF (some q) d = q) ∧
    (∀ d : ℚ, underscoreF none d = d) ∧
    (∀ r : ℚ, 1 ≤ sugarClamp r ∧ sugarClamp r ≤ 500) :=
  ⟨clamp_scalarFieldsIn01,
   fun _ _ => rfl,
   fun _ => rfl,
   fun r => ⟨le_max_left _ _, max_le (by norm_num) (min_le_right _ _)⟩⟩

/-! ## C9 — clamp idempotence -/

@[simp] theorem clampCore_mineral (p : VizProfile) :
    (clampCore p).mineral = p.mineral := rfl

@[simp] theorem clampCore_bubbles (p : VizProfile) :
    (clampCore p).bubbles = p.bubbles := rfl

@[simp] theorem clampCore_mineral_intensity (p : VizProfile) :
    (clampCore p).mineral_intensity = c p.mineral_intensity := rfl

@[simp] theorem clampCore_effervescence (p : VizProfile) :
    (clampCore p).effervescence = c p.effervescence := rfl

@[simp] theorem clampCore_bubbles_intensity (p : VizProfile) :
    (clampCore p).bubbles_intensity = c p.bubbles_intensity := rfl

/-- The field-wise pass fixes a record whose listed fields already
lie in [0, 1]. -/
theorem clampCore_eq_of_in01 {p : VizProfile}
    (h : scalarFieldsIn01 p) : clampCore p = p := by
  obtain ⟨h1, h2, h3, h4, h5, h6, h7, h8, h9, h10, h11, h12, h13, h14, h15, h16, h17⟩ := h
  cases p
  simp only [clampCore, VizProfile.mk.injEq, and_true, true_and]
  exact ⟨c_eq_self h1.1 h1.2, c_eq_self h2.1 h2.2, c_eq_self h3.1 h3.2,
    c_eq_self h4.1 h4.2, c_eq_self h5.1 h5.2, c_eq_self h6.1 h6.2,
    c_eq_self h7.1 h7.2, c_eq_self h8.1 h8.2, c_eq_self h9.1 h9.2,
    c_eq_self h10.1 h10.2, c_eq_self h11.1 h11.2, c_eq_self h12.1 h12.2,
    c_eq_self h13.1 h13.2, c_eq_self h14.1 h14.2, c_eq_self h15.1 h15.2,
    c_eq_self h16.1 h16.2, c_eq_self h17.1 h17.2⟩

theorem clamp_mineral (p : VizProfile) : (p.clamp).mineral = p.mineral := by
  simp [VizProfile.clamp]

theorem clamp_bubbles (p : VizProfile) : (p.clamp).bubbles = p.bubbles := by
  simp [VizProfile.clamp]

theorem clamp_bubbles_intensity (p : VizProfile) :
    (p.clamp).bubbles_intensity = c p.bubbles_intensity := by
  simp [VizProfile.clamp]

/-- If the record had a positive legacy mineral value, clamp leaves a
non-zero mineral_intensity behind (either it already was non-zero, or
the synchronisation wrote the positive c(mineral) into it). -/
theorem clamp_mineral_intensity_ne_zero {p : VizProfile}
    (hm : 0 < p.mineral) : (p.clamp).mineral_intensity ≠ 0 := by
  unfold VizProfile.clamp
  simp only [syncBubbles_mineral_intensity, syncBubblesIntensity_mineral_intensity,
    syncMineral_mineral_intensity, clampCore_mineral, clampCore_mineral_intensity]
  by_cases hc : 0 < p.mineral ∧ c p.mineral_intensity = 0
  · rw [if_pos hc]
    exact (c_pos hm).ne'
  · rw [if_neg hc]
    intro h0
    exact hc ⟨hm, h0⟩

/-- If the record had a positive bubbles_intensity or the bubbles
flag, clamp leaves a non-zero effervescence behind. -/
theorem clamp_effervescence_ne_zero {p : VizProfile}
    (h : 0 < c p.bubbles_intensity ∨ p.bubbles = true) :
    (p.clamp).effervescence ≠ 0 := by
  unfold VizProfile.clamp
  simp only [syncBubbles_effervescence, syncBubblesIntensity_effervescence,
    syncBubblesIntensity_bubbles, syncMineral_effervescence,
    syncMineral_bubbles_intensity, syncMineral_bubbles,
    clampCore_effervescence, clampCore_bubbles_intensity, clampCore_bubbles, c_idem]
  by_cases hC1 : 0 < c p.bubbles_intensity ∧ c p.effervescence = 0
  · rw [if_pos hC1]
    by_cases hC2 : p.bubbles = true ∧ c p.bubbles_intensity = 0
    · rw [if_pos hC2]
      norm_num
    · rw [if_neg hC2]
      exact hC1.1.ne'
  · rw [if_neg hC1]
    by_cases hC2 : p.bubbles = true ∧ c p.effervescence = 0
    · rw [if_pos hC2]
      norm_num
    · rw [if_neg hC2]
      intro h0
      rcases h with ha | hb
      · exact hC1 ⟨ha, h0⟩
      · exact hC2 ⟨hb, h0⟩

/-- C9: VizProfile.clamp is idempotent: clamping an already-clamped
record, legacy synchronisations of mineral, bubbles_intensity and
bubbles included, changes nothing. -/
theorem clamp_idempotent (p : VizProfile) : p.clamp.clamp = p.clamp := by
  have hM : syncMineral p.clamp = p.clamp := by
    unfold syncMineral
    rw [if_neg]
    rintro ⟨ha, hb⟩
    rw [clamp_mineral] at ha
    exact clamp_mineral_intensity_ne_zero ha hb
  have hBI : syncBubblesIntensity p.clamp = p.clamp := by
    unfold syncBubblesIntensity
    rw [if_neg]
    rintro ⟨ha, hb⟩
    rw [clamp_bubbles_intensity] at ha
    exact clamp_effervescence_ne_zero (Or.inl ha) hb
  have hB : syncBubbles p.clamp = p.clamp := by
    unfold syncBubbles
    rw [if_neg]
    rintro ⟨ha, hb⟩
    rw [clamp_bubbles] at ha
    exact clamp_effervescence_ne_zero (Or.inr ha) hb
  calc p.clamp.clamp
      = syncBubbles (syncBubblesIntensity (syncMineral (clampCore p.clamp))) := rfl
    _ = syncBubbles (syncBubblesIntensity (syncMineral p.clamp)) := by
        rw [clampCore_eq_of_in01 (clamp_scalarFieldsIn01 p)]
    _ = p.clamp := by rw [hM, hBI, hB]

/-! ## C10 — hex_to_rgb on well-formed six-digit strings -/

theorem hexDigitVal?_le_15 {ch : Char} {v : ℕ}
    (h : hexDigitVal? ch = some v) : v ≤ 15 := by
  simp only [hexDigitVal?] at h
  split_ifs at h with h1 h2 h3 <;> simp only [Option.some.injEq] at h <;> omega

theorem hexDigit_not_space {ch : Char} {v : ℕ}
    (h : hexDigitVal? ch = some v) : isSpaceChar ch = false := by
  simp only [hexDigitVal?] at h
  simp only [isSpaceChar]
  split_ifs at h with h1 h2 h3 <;>
    simp only [Bool.or_eq_false_iff, decide_eq_false_iff_not] <;> omega

theorem hexDigit_ne_hash {ch : Char} {v : ℕ}
    (h : hexDigitVal? ch = some v) : ¬ ch = '#' := by
  intro he
  have hnone : hexDigitVal? '#' = none := by decide
  rw [he, hnone] at h
  exact Option.noConfusion h

theorem dropWhile_append_of_all {p : Char → Bool} :
    ∀ (a b : List Char), (∀ ch ∈ a, p ch = true) →
      (a ++ b).dropWhile p = b.dropWhile p := by
  intro a
  induction a with
  | nil => intro b _; rfl
  | cons x xs ih =>
      intro b h
      rw [List.cons_append, List.dropWhile_cons_of_pos (h x (List.mem_cons_self x xs))]
      exact ih b (fun ch hch => h ch (List.mem_cons_of_mem x hch))

theorem pyRstrip_all_space : ∀ {l : List Char},
    (∀ ch ∈ l, isSpaceChar ch = true) → pyRstrip l = [] := by
  intro l
  induction l with
  | nil => intro _; rfl
  | cons x xs ih =>
      intro h
      simp only [pyRstrip]
      rw [ih (fun ch hch => h ch (List.mem_cons_of_mem x hch))]
      rw [if_pos ⟨rfl, h x (List.mem_cons_self x xs)⟩]

theorem pyRstrip_append {wr : List Char}
    (hwr : ∀ ch ∈ wr, isSpaceChar ch = true) :
    ∀ (mid : List Char) (y : Char), isSpaceChar y = false →
      pyRstrip (mid ++ y :: wr) = mid ++ [y] := by
  intro mid
  induction mid with
  | nil =>
      intro y hy
      have hcond : ¬(([] : List Char).isEmpty = true ∧ isSpaceChar y = true) := by
        rintro ⟨_, hy'⟩
        rw [hy] at hy'
        exact Bool.noConfusion hy'
      simp only [List.nil_append, pyRstrip]
      rw [pyRstrip_all_space hwr, if_neg hcond]
  | cons m ms ih =>
      intro y hy
      simp only [List.cons_append, pyRstrip, List.append_eq]
      rw [ih y hy]
      have hcond : ¬((ms ++ [y]).isEmpty = true ∧ isSpaceChar m = true) := by
        rintro ⟨he, _⟩
        simp at he
      rw [if_neg hcond]

theorem pyStrip_sandwich {wl wr : List Char}
    (hwl : ∀ ch ∈ wl, isSpaceChar ch = true)
    (hwr : ∀ ch ∈ wr, isSpaceChar ch = true)
    (x : Char) (mid : List Char) (y : Char)
    (hx : isSpaceChar x = false) (hy : isSpaceChar y = false) :
    pyStrip (wl ++ (x :: (mid ++ [y])) ++ wr) = x :: (mid ++ [y]) := by
  unfold pyStrip
  rw [List.append_assoc, dropWhile_append_of_all wl _ hwl, List.cons_append,
    List.dropWhile_cons_of_neg (by rw [hx]; simp)]
  have hsh : x :: ((mid ++ [y]) ++ wr) = (x :: mid) ++ (y :: wr) := by simp
  rw [hsh, pyRstrip_append hwr (x :: mid) y hy]
  rfl

/-- C10: on a string of exactly six hexadecimal digits, optionally
preceded by a number sign and surrounded by whitespace, hex_to_rgb
returns exactly the three byte values: the FF prepend puts the extra
bits above bit 23, where the shift-and-mask extraction never sees
them, and each component is at most 255. -/
theorem hex_to_rgb_six_digits
    (wl wr : List Char) (hash : Bool)
    (d1 d2 d3 d4 d5 d6 : Char) (v1 v2 v3 v4 v5 v6 : ℕ)
    (hwl : ∀ ch ∈ wl, isSpaceChar ch = true)
    (hwr : ∀ ch ∈ wr, isSpaceChar ch = true)
    (h1 : hexDigitVal? d1 = some v1) (h2 : hexDigitVal? d2 = some v2)
    (h3 : hexDigitVal? d3 = some v3) (h4 : hexDigitVal? d4 = some v4)
    (h5 : hexDigitVal? d5 = some v5) (h6 : hexDigitVal? d6 = some v6) :
    hex_to_rgb (wl ++ (cond hash [ '#' ] []) ++ [d1, d2, d3, d4, d5, d6] ++ wr) =
      some (16 * v1 + v2, 16 * v3 + v4, 16 * v5 + v6) ∧
    16 * v1 + v2 ≤ 255 ∧ 16 * v3 + v4 ≤ 255 ∧ 16 * v5 + v6 ≤ 255 := by
  have b1 := hexDigitVal?_le_15 h1
  have b2 := hexDigitVal?_le_15 h2
  have b3 := hexDigitVal?_le_15 h3
  have b4 := hexDigitVal?_le_15 h4
  have b5 := hexDigitVal?_le_15 h5
  have b6 := hexDigitVal?_le_15 h6
  refine ⟨?_, by omega, by omega, by omega⟩
  have hF : hexDigitVal? 'F' = some 15 := by decide
  have hval : hexVal? ('F' :: 'F' :: [d1, d2, d3, d4, d5, d6]) =
      some (4278190080 + v1 * 1048576 + v2 * 65536 + v3 * 4096 + v4 * 256 + v5 * 16 + v6) := by
    simp only [hexVal?, List.isEmpty_cons, Bool.false_eq_true, if_false,
      hexValAux, hF, h1, h2, h3, h4, h5, h6, Option.some.injEq]
    omega
  have hstrip : pyStrip (wl ++ (cond hash [ '#' ] []) ++ [d1, d2, d3, d4, d5, d6] ++ wr) =
      (cond hash [ '#' ] []) ++ [d1, d2, d3, d4, d5, d6] := by
    cases hash
    · simp only [Bool.cond_false, List.nil_append]
      have hs := pyStrip_sandwich hwl hwr d1 [d2, d3, d4, d5] d6
        (hexDigit_not_space h1) (hexDigit_not_space h6)
      simpa using hs
    · simp only [Bool.cond_true]
      have hs := pyStrip_sandwich hwl hwr '#' [d1, d2, d3, d4, d5] d6
        (by decide) (hexDigit_not_space h6)
      simpa using hs
  have hlstrip : pyLstripHash ((cond hash [ '#' ] []) ++ [d1, d2, d3, d4, d5, d6]) =
      [d1, d2, d3, d4, d5, d6] := by
    cases hash
    · simp only [Bool.cond_false, List.nil_append, pyLstripHash]
      rw [List.dropWhile_cons_of_neg]
      simp only [decide_eq_true_eq]
      exact hexDigit_ne_hash h1
    · simp only [Bool.cond_true, pyLstripHash]
      rw [show ([ '#' ] ++ [d1, d2, d3, d4, d5, d6]) = '#' :: [d1, d2, d3, d4, d5, d6] from rfl]
      rw [List.dropWhile_cons_of_pos (by decide), List.dropWhile_cons_of_neg]
      simp only [decide_eq_true_eq]
      exact hexDigit_ne_hash h1
  simp only [hex_to_rgb]
  rw [hstrip, hlstrip]
  rw [if_pos (by simp)]
  rw [hval]
  simp only [Option.some.injEq, Prod.mk.injEq]
  refine ⟨?_, ?_, ?_⟩ <;> omega

/-- C10 witness: the string space-hash-1A2b3C-space parses to the
bytes (26, 43, 60). -/
theorem hex_to_rgb_six_digits_witness :
    hex_to_rgb ([ ' ' ] ++ (cond true [ '#' ] []) ++ [ '1', 'A', '2', 'b', '3', 'C' ] ++ [ ' ' ]) =
      some (16 * 1 + 10, 16 * 2 + 11, 16 * 3 + 12) ∧
    16 * 1 + 10 ≤ 255 ∧ 16 * 2 + 11 ≤ 255 ∧ 16 * 3 + 12 ≤ 255 :=
  hex_to_rgb_six_digits [ ' ' ] [ ' ' ] true '1' 'A' '2' 'b' '3' 'C' 1 10 2 11 3 12
    (by decide) (by decide) (by decide) (by decide) (by decide)
    (by decide) (by decide) (by decide)

end ColoursOfWine
